import Mathlib

/-!
Shallow embedding of the signup/OTP coordination logic of the repository:
  - src/src/contexts/AuthContext.tsx (auth gateway over the hosted provider,
    session store: checkUser, sendSignUpOTP, verifyOTPAndSignUp)
  - src/src/pages/OtpVerification.tsx (signup coordinator page: handleVerify,
    handleResendOtp, mount effect, cooldown timer)
  - src/unnamed/part_000 = src/App.tsx (ProtectedRoute route guard)

The hosted provider (supabase) is external: each provider request's outcome is
supplied to the embedded function as an explicit parameter (`Option AuthError`,
`none` = success), and the function records the requests it issues, together
with its browser local-storage writes, in an ordered event trace.  Browser
local storage is modelled as a map from string keys to optional string values.
React component state is passed explicitly; `setX` calls become functional
record updates, and `setTimeout`-scheduled navigations are returned as a list
of (delay in milliseconds, target path) pairs.
-/

namespace Amma

/-- Error object reported by the provider (or thrown locally); carries the
JS `message` field that the pages read via `err.message`. -/
structure AuthError where
  message : String
deriving DecidableEq, Repr

/-- Browser local storage: a map from string keys to optional string values. -/
def LocalStorage : Type := String → Option String

/-- Model of `localStorage.getItem(key)`. -/
def LocalStorage.getItem (st : LocalStorage) (key : String) : Option String :=
  st key

/-- Model of `localStorage.setItem(key, value)`. -/
def LocalStorage.setItem (st : LocalStorage) (key value : String) : LocalStorage :=
  fun k => if k = key then some value else st k

/-- Model of `localStorage.removeItem(key)`. -/
def LocalStorage.removeItem (st : LocalStorage) (key : String) : LocalStorage :=
  fun k => if k = key then none else st k

/-- Storage with no keys set. -/
def emptyStorage : LocalStorage := fun _ => none

/-- A request issued to the hosted provider (a `supabase.auth` method call). -/
inductive ProviderCall where
  | getSession
  | signInWithOtp (email : String) (shouldCreateUser : Bool)
  | verifyOtp (email token otpType : String)
  | signUp (email password userDataName redirectPath : String)
deriving DecidableEq, Repr

/-- An observable effect: a local-storage write or a provider request, in
program order. -/
inductive Event where
  | setItem (key value : String)
  | removeItem (key : String)
  | call (c : ProviderCall)
deriving DecidableEq, Repr

/-- Whether an event is the account-creation request (`supabase.auth.signUp`). -/
def Event.isSignUpCall : Event → Bool
  | .call (.signUp _ _ _ _) => true
  | _ => false

/-- Outcome of an auth-gateway operation: the value returned or error thrown,
the local storage afterwards, and the ordered effects performed. -/
structure GatewayResult where
  result : Except AuthError Unit
  storage : LocalStorage
  events : List Event

/-- Embedding of `sendSignUpOTP` (AuthContext.tsx lines 93-119): stores the
email under the key signupEmail, then issues `signInWithOtp` with
`shouldCreateUser: false`; a provider error is rethrown unchanged and the
storage write is not rolled back.  `otpResp` is the provider's outcome. -/
def sendSignUpOTP (otpResp : Option AuthError) (email : String)
    (st : LocalStorage) : GatewayResult :=
  let st1 := st.setItem ("signupEmail") email
  let ev := [Event.setItem ("signupEmail") email,
             Event.call (ProviderCall.signInWithOtp email false)]
  match otpResp with
  | some e => ⟨Except.error e, st1, ev⟩
  | none => ⟨Except.ok (), st1, ev⟩

/-- Embedding of `verifyOTPAndSignUp` (AuthContext.tsx lines 122-165): first
issues `verifyOtp` (type email); on error rethrows it and stops.  Otherwise
issues `signUp` with the password and the userData profile (the call site
always passes a profile consisting of a name, modelled by `userDataName`);
on error rethrows it.  On success removes the signupEmail key.  `verifyResp`
and `signUpResp` are the provider's outcomes for the two requests. -/
def verifyOTPAndSignUp (verifyResp signUpResp : Option AuthError)
    (email token password userDataName : String) (st : LocalStorage) :
    GatewayResult :=
  let verifyEv := Event.call (ProviderCall.verifyOtp email token ("email"))
  match verifyResp with
  | some e => ⟨Except.error e, st, [verifyEv]⟩
  | none =>
    let signUpEv :=
      Event.call (ProviderCall.signUp email password userDataName ("/login"))
    match signUpResp with
    | some e => ⟨Except.error e, st, [verifyEv, signUpEv]⟩
    | none =>
      ⟨Except.ok (), st.removeItem ("signupEmail"),
       [verifyEv, signUpEv, Event.removeItem ("signupEmail")]⟩

theorem LocalStorage.getItem_setItem_ne (st : LocalStorage) (key value k : String)
    (h : k ≠ key) : (st.setItem key value).getItem k = st.getItem k := by
  simp [LocalStorage.setItem, LocalStorage.getItem, h]

theorem LocalStorage.getItem_setItem_same (st : LocalStorage) (key value : String) :
    (st.setItem key value).getItem key = some value := by
  simp [LocalStorage.setItem, LocalStorage.getItem]

/-- Claim C1: verifyOTPAndSignUp issues the OTP-verification request first
(the head of its event trace is the `verifyOtp` call for every outcome), and
whenever verification returns an error, that error is the operation's result
and no account-creation (`signUp`) request appears among its events. -/
theorem verifyOTPAndSignUp_verifies_first_and_aborts_on_error
    (verifyResp signUpResp : Option AuthError)
    (email token password userDataName : String) (st : LocalStorage) :
    (verifyOTPAndSignUp verifyResp signUpResp email token password userDataName
        st).events.head? =
      some (Event.call (ProviderCall.verifyOtp email token ("email"))) ∧
    (∀ e : AuthError, verifyResp = some e →
      (verifyOTPAndSignUp verifyResp signUpResp email token password
          userDataName st).result = Except.error e ∧
      ∀ ev ∈ (verifyOTPAndSignUp verifyResp signUpResp email token password
          userDataName st).events, ev.isSignUpCall = false) := by
  cases verifyResp <;> cases signUpResp <;>
    simp [verifyOTPAndSignUp, Event.isSignUpCall]

/-- A provider error used in concrete instantiations. -/
def sampleVerifyErr : AuthError := { message := "Token has expired or is invalid" }

theorem verifyOTPAndSignUp_verifies_first_and_aborts_on_error_witness :
    (verifyOTPAndSignUp (some sampleVerifyErr) none ("a@b.com") ("123456")
        ("pw123456") ("Al") emptyStorage).result = Except.error sampleVerifyErr ∧
    ∀ ev ∈ (verifyOTPAndSignUp (some sampleVerifyErr) none ("a@b.com") ("123456")
        ("pw123456") ("Al") emptyStorage).events, ev.isSignUpCall = false :=
  (verifyOTPAndSignUp_verifies_first_and_aborts_on_error (some sampleVerifyErr)
    none ("a@b.com") ("123456") ("pw123456") ("Al") emptyStorage).2
    sampleVerifyErr rfl

/-- Claim C10: sendSignUpOTP writes the email under signupEmail before issuing
the provider request (the write precedes the call in its event trace), and
when the provider request fails the error is propagated while the
signupEmail key remains set to that email. -/
theorem sendSignUpOTP_writes_email_before_call
    (otpResp : Option AuthError) (email : String) (st : LocalStorage) :
    (sendSignUpOTP otpResp email st).events =
      [Event.setItem ("signupEmail") email,
       Event.call (ProviderCall.signInWithOtp email false)] ∧
    (∀ e : AuthError, otpResp = some e →
      (sendSignUpOTP otpResp email st).result = Except.error e ∧
      (sendSignUpOTP otpResp email st).storage.getItem ("signupEmail") =
        some email) := by
  cases otpResp <;>
    simp [sendSignUpOTP, LocalStorage.getItem_setItem_same]

/-- A provider error for the OTP-send request, used in concrete instantiations. -/
def sampleSendErr : AuthError := { message := "Email rate limit exceeded" }

theorem sendSignUpOTP_writes_email_before_call_witness :
    (sendSignUpOTP (some sampleSendErr) ("a@b.com") emptyStorage).result =
      Except.error sampleSendErr ∧
    (sendSignUpOTP (some sampleSendErr) ("a@b.com") emptyStorage).storage.getItem
      ("signupEmail") = some ("a@b.com") :=
  (sendSignUpOTP_writes_email_before_call (some sampleSendErr) ("a@b.com")
    emptyStorage).2 sampleSendErr rfl

/-- The signup intent persisted by the signup page under the key signupData
(JSON-serialized, read back by handleVerify via `JSON.parse`). -/
structure SignupData where
  email : String
  password : String
  name : String
deriving DecidableEq, Repr

/-- Component state of the OtpVerification page (its `useState` hooks,
OtpVerification.tsx lines 8-13). -/
structure OtpPageState where
  otp : String
  email : String
  loading : Bool
  error : String
  message : String
  cooldown : Nat
deriving DecidableEq, Repr

/-- The page's state on mount: every `useState` initializer — in particular
the cooldown starts at 0 (OtpVerification.tsx line 13). -/
def otpInitialState : OtpPageState :=
  { otp := "", email := "", loading := false, error := "", message := "",
    cooldown := 0 }

/-- What the mount effect renders: the page with its state, or an immediate
redirect to the signup view. -/
inductive MountResult where
  | page (s : OtpPageState)
  | redirectToSignup
deriving DecidableEq, Repr

/-- Embedding of the mount part of the page's effect (OtpVerification.tsx
lines 18-31): takes the email from `location.state.email` when truthy, else
from the stored signupEmail key when truthy, else redirects to /signup.
`locationStateEmail` is `location.state?.email` (`none` when location.state
is absent; the empty string is falsy in JS, matching the source's guard). -/
def otpMount (locationStateEmail : Option String) (st : LocalStorage) :
    MountResult :=
  if locationStateEmail.getD ("") ≠ "" then
    MountResult.page { otpInitialState with
      email := locationStateEmail.getD (""),
      message := "Verification code has been sent. Please check your inbox and spam folder." }
  else if (st.getItem ("signupEmail")).getD ("") ≠ "" then
    MountResult.page { otpInitialState with
      email := (st.getItem ("signupEmail")).getD (""),
      message := "Please enter the verification code sent to your email." }
  else
    MountResult.redirectToSignup

/-- Embedding of the cooldown timer in the page's effect (OtpVerification.tsx
lines 33-38): while the cooldown is positive, a 1-second timeout decrements
it by one; at 0 no timer is armed.  One application models one elapsed
second's tick. -/
def cooldownTick (s : OtpPageState) : OtpPageState :=
  if s.cooldown > 0 then { s with cooldown := s.cooldown - 1 } else s

/-- Model of the JS fallback `err.message || fallback` (empty string is
falsy). -/
def errMessageOr (e : AuthError) (fallback : String) : String :=
  if e.message = "" then fallback else e.message

/-- Outcome of a page handler: the component state afterwards, local storage,
the ordered effects, and the `setTimeout`-scheduled navigations as
(delay in ms, target path) pairs. -/
structure PageOutcome where
  state : OtpPageState
  storage : LocalStorage
  events : List Event
  scheduledNav : List (Nat × String)

/-- Embedding of `handleVerify` (OtpVerification.tsx lines 40-87).  If email
or otp is empty, sets the presence-check error and returns.  Otherwise sets
loading, reads signupData: when absent, the thrown missing-intent error is
caught and displayed and no provider request is made.  When present, the
string is parsed (`JSON.parse` plus field reads — a host builtin, supplied
as the parameter `parseSignupData`; a parse failure is caught like any
thrown error) and `verifyOTPAndSignUp` is invoked with the page's email and
otp and the stored password and name.  On error the message is displayed;
on success the success message is set, both keys are removed, and a
navigation to /login is scheduled after 2000 ms. -/
def handleVerify (parseSignupData : String → Except AuthError SignupData)
    (verifyResp signUpResp : Option AuthError)
    (s : OtpPageState) (st : LocalStorage) : PageOutcome :=
  if s.email = "" ∨ s.otp = "" then
    ⟨{ s with error := "Email and verification code are required" }, st, [], []⟩
  else
    let s1 := { s with loading := true, error := "" }
    match st.getItem ("signupData") with
    | none =>
      ⟨{ s1 with
          loading := false
          error := "Signup data not found. Please try again." }, st, [], []⟩
    | some dataStr =>
      match parseSignupData dataStr with
      | Except.error e =>
        ⟨{ s1 with
            loading := false
            error := errMessageOr e ("Failed to verify email") }, st, [], []⟩
      | Except.ok sd =>
        let g := verifyOTPAndSignUp verifyResp signUpResp s.email s.otp
          sd.password sd.name st
        match g.result with
        | Except.error e =>
          ⟨{ s1 with
              loading := false
              error := errMessageOr e ("Failed to verify email") },
           g.storage, g.events, []⟩
        | Except.ok _ =>
          ⟨{ s1 with
              loading := false
              message := "Account created successfully! Redirecting to login..." },
           (g.storage.removeItem ("signupData")).removeItem ("signupEmail"),
           g.events ++ [Event.removeItem ("signupData"),
                        Event.removeItem ("signupEmail")],
           [(2000, "/login")]⟩

/-- Embedding of `handleResendOtp` (OtpVerification.tsx lines 89-114).
Returns immediately while the cooldown is positive; with an empty email sets
an error; otherwise sets loading and invokes `sendSignUpOTP` with the page's
email: on success sets the resent message and a 60-second cooldown, on error
displays the message.  The Pending Signup Intent (signupData) is never
touched. -/
def handleResendOtp (otpResp : Option AuthError) (s : OtpPageState)
    (st : LocalStorage) : PageOutcome :=
  if s.cooldown > 0 then ⟨s, st, [], []⟩
  else if s.email = "" then
    ⟨{ s with error := "Email is required to resend verification code" },
     st, [], []⟩
  else
    let s1 := { s with loading := true, error := "" }
    let g := sendSignUpOTP otpResp s.email st
    match g.result with
    | Except.ok _ =>
      ⟨{ s1 with
          loading := false
          cooldown := 60
          message := "Verification code resent! Please check your inbox and spam folder." },
       g.storage, g.events, []⟩
    | Except.error e =>
      ⟨{ s1 with
          loading := false
          error := errMessageOr e ("Failed to resend verification code") },
       g.storage, g.events, []⟩

/-- Session token bundle cached by the session store; carries the user record
read via `session?.user` (the user record is opaque, modelled by its id). -/
structure SessionData where
  user : String
deriving DecidableEq, Repr

/-- State of the session store (the `useState` hooks of AuthProvider,
AuthContext.tsx lines 36-38). -/
structure AuthState where
  user : Option String
  session : Option SessionData
  loading : Bool
deriving DecidableEq, Repr

/-- The session store's state at construction: no user, no session, loading
true (AuthContext.tsx lines 36-38). -/
def authInitialState : AuthState :=
  { user := none, session := none, loading := true }

/-- The auth-state-change subscription handle returned by
`supabase.auth.onAuthStateChange`. -/
structure Subscription where
  unsubscribed : Bool
deriving DecidableEq, Repr

/-- Model of `authListener.subscription.unsubscribe()`. -/
def Subscription.unsubscribe (sub : Subscription) : Subscription :=
  { sub with unsubscribed := true }

/-- What the async `checkUser` (AuthContext.tsx lines 42-65) does: its state
update, the provider requests it issues, what it logs via `console.error`,
and the cleanup closure it returns (lines 62-64) — which, `checkUser` being
async, reaches its caller only wrapped in a Promise. -/
structure CheckUserResult where
  state : AuthState
  calls : List ProviderCall
  logs : List String
  returnedCleanup : Subscription → Subscription

/-- Embedding of `checkUser` (AuthContext.tsx lines 42-65): one `getSession`
lookup; on success the session and its user (or null) are stored; on failure
the error is logged and the state setters are skipped; either way the
`finally` clears loading, the change listener is registered, and the closure
that unsubscribes it is returned.  `lookup` is the lookup's outcome. -/
def checkUser (lookup : Except String (Option SessionData)) (s : AuthState) :
    CheckUserResult :=
  match lookup with
  | Except.ok sessOpt =>
    ⟨{ s with
        session := sessOpt
        user := Option.map SessionData.user sessOpt
        loading := false },
     [ProviderCall.getSession], [], Subscription.unsubscribe⟩
  | Except.error e =>
    ⟨{ s with loading := false },
     [ProviderCall.getSession], ["Error checking session: " ++ e],
     Subscription.unsubscribe⟩

/-- Embedding of the body of AuthProvider's `useEffect` (AuthContext.tsx
lines 40-68): it invokes the async `checkUser` and returns without a value,
so the cleanup `checkUser` returns is wrapped in its Promise and discarded —
React is handed no cleanup (`none`). -/
def authProviderEffect (lookup : Except String (Option SessionData))
    (s : AuthState) : AuthState × Option (Subscription → Subscription) :=
  ((checkUser lookup s).state, none)

/-- React's teardown of an effect: runs the registered cleanup when there is
one, otherwise does nothing. -/
def runUnmountCleanup (cleanup : Option (Subscription → Subscription))
    (sub : Subscription) : Subscription :=
  match cleanup with
  | some f => f sub
  | none => sub

/-- What ProtectedRoute renders. -/
inductive RouteRender where
  | spinner
  | redirectToLogin (fromLocation : String)
  | children
deriving DecidableEq, Repr

/-- Embedding of `ProtectedRoute` (App.tsx lines 27-45): while the session
store is loading it renders the spinner; otherwise, with no user it renders
a Navigate to /login carrying the current location as state, and with a
user it renders the protected children. -/
def ProtectedRoute (user : Option String) (loading : Bool)
    (location : String) : RouteRender :=
  if loading then RouteRender.spinner
  else if user.isNone then RouteRender.redirectToLogin location
  else RouteRender.children

theorem LocalStorage.getItem_removeItem_same (st : LocalStorage) (key : String) :
    (st.removeItem key).getItem key = none := by
  simp [LocalStorage.removeItem, LocalStorage.getItem]

theorem LocalStorage.getItem_removeItem_ne (st : LocalStorage) (key k : String)
    (h : k ≠ key) : (st.removeItem key).getItem k = st.getItem k := by
  simp [LocalStorage.removeItem, LocalStorage.getItem, h]

/-- The storage right after the initial `sendSignUpOTP` of the signup step
succeeded for a@b.com (the signupEmail key is set). -/
def initialSendStorage : LocalStorage :=
  (sendSignUpOTP none ("a@b.com") emptyStorage).storage

/-- The page state produced by mounting the verification page with
`location.state.email` present: the cooldown is 0. -/
def mountedState : OtpPageState :=
  { otpInitialState with
      email := "a@b.com"
      message := "Verification code has been sent. Please check your inbox and spam folder." }

/-- The mounted page state after a successful resend set the cooldown. -/
def cooldownActiveState : OtpPageState := { mountedState with cooldown := 60 }

/-- The mounted page state with the code typed in. -/
def verifyReadyState : OtpPageState := { mountedState with otp := "123456" }

/-- Claim C2 counterexample: an initial `sendSignUpOTP` succeeds for a@b.com,
the verification page mounts — and its Resend Cooldown is 0, not 60, so the
immediately following resend attempt is not rejected and does issue the
provider request. -/
theorem resend_allowed_immediately_after_initial_send :
    (sendSignUpOTP none ("a@b.com") emptyStorage).result = Except.ok () ∧
    otpMount (some ("a@b.com")) initialSendStorage =
      MountResult.page mountedState ∧
    mountedState.cooldown = 0 ∧
    Event.call (ProviderCall.signInWithOtp ("a@b.com") false) ∈
      (handleResendOtp none mountedState initialSendStorage).events :=
  ⟨rfl, by decide, rfl, by decide⟩

/-- Claim C2 (amended): the 60-second cooldown is started only by a
successful resend — after `handleResendOtp` succeeds the cooldown is 60 —
and while the cooldown is positive a resend attempt is rejected locally:
state and storage are unchanged and no provider call is issued. -/
theorem resend_cooldown_sixty_after_success_blocks_while_positive
    (otpResp : Option AuthError) (s : OtpPageState) (st : LocalStorage) :
    (0 < s.cooldown →
      (handleResendOtp otpResp s st).state = s ∧
      (handleResendOtp otpResp s st).storage = st ∧
      (handleResendOtp otpResp s st).events = []) ∧
    (s.cooldown = 0 → s.email ≠ "" → otpResp = none →
      (handleResendOtp otpResp s st).state.cooldown = 60) := by
  constructor
  · intro h
    refine ⟨?_, ?_, ?_⟩ <;> simp [handleResendOtp, h]
  · intro h0 he hn
    subst hn
    simp [handleResendOtp, h0, he, sendSignUpOTP]

theorem resend_cooldown_sixty_after_success_blocks_while_positive_witness :
    (handleResendOtp none cooldownActiveState initialSendStorage).events = [] ∧
    (handleResendOtp none mountedState initialSendStorage).state.cooldown = 60 :=
  ⟨((resend_cooldown_sixty_after_success_blocks_while_positive none
      cooldownActiveState initialSendStorage).1 (by decide)).2.2,
   (resend_cooldown_sixty_after_success_blocks_while_positive none
      mountedState initialSendStorage).2 rfl (by decide) rfl⟩

/-- The parse of the stored signupData string used in concrete
instantiations (JSON.parse of a well-formed intent). -/
def sampleSignupData : SignupData :=
  { email := "a@b.com", password := "pw123456", name := "Al" }

/-- A parse function standing for `JSON.parse` succeeding on the stored
intent. -/
def sampleParse : String → Except AuthError SignupData :=
  fun _ => Except.ok sampleSignupData

/-- A page state whose email is empty while a code was typed. -/
def emptyEmailState : OtpPageState := { otpInitialState with otp := "123456" }

/-- Claim C3 counterexample: code submission with no stored signupData but an
empty email fails with the presence-check error, not the missing-intent
error (no provider call is made either way). -/
theorem handleVerify_empty_email_presence_error_not_missing_intent :
    emptyStorage.getItem ("signupData") = none ∧
    (handleVerify sampleParse none none emptyEmailState emptyStorage).state.error =
      "Email and verification code are required" ∧
    (handleVerify sampleParse none none emptyEmailState emptyStorage).state.error ≠
      "Signup data not found. Please try again." ∧
    (handleVerify sampleParse none none emptyEmailState emptyStorage).events = [] := by
  refine ⟨rfl, rfl, ?_, rfl⟩
  decide

/-- Claim C3 (amended): with no signupData stored, code submission never
issues a provider request and leaves storage unchanged, and whenever email
and code are both nonempty it fails with the missing-intent error. -/
theorem handleVerify_missing_intent_fails_locally
    (parse : String → Except AuthError SignupData)
    (verifyResp signUpResp : Option AuthError)
    (s : OtpPageState) (st : LocalStorage)
    (hd : st.getItem ("signupData") = none) :
    (handleVerify parse verifyResp signUpResp s st).events = [] ∧
    (handleVerify parse verifyResp signUpResp s st).storage = st ∧
    (s.email ≠ "" → s.otp ≠ "" →
      (handleVerify parse verifyResp signUpResp s st).state.error =
        "Signup data not found. Please try again.") := by
  unfold handleVerify
  by_cases h : s.email = "" ∨ s.otp = ""
  · rw [if_pos h]
    refine ⟨rfl, rfl, ?_⟩
    intro he ho
    rcases h with h | h
    · exact absurd h he
    · exact absurd h ho
  · rw [if_neg h, hd]
    exact ⟨rfl, rfl, fun _ _ => rfl⟩

theorem handleVerify_missing_intent_fails_locally_witness :
    (handleVerify sampleParse none none verifyReadyState emptyStorage).events = [] ∧
    (handleVerify sampleParse none none verifyReadyState emptyStorage).state.error =
      "Signup data not found. Please try again." :=
  ⟨(handleVerify_missing_intent_fails_locally sampleParse none none
      verifyReadyState emptyStorage rfl).1,
   (handleVerify_missing_intent_fails_locally sampleParse none none
      verifyReadyState emptyStorage rfl).2.2 (by decide) (by decide)⟩

/-- Claim C4: when verifyOTPAndSignUp succeeds on code submission, both
storage keys signupData and signupEmail end up cleared, the success message
is set and exactly one navigation to the sign-in view is scheduled, after a
2000 ms display delay. -/
theorem handleVerify_success_clears_intent_and_completes_once
    (parse : String → Except AuthError SignupData)
    (s : OtpPageState) (st : LocalStorage) (dataStr : String) (sd : SignupData)
    (he : s.email ≠ "") (ho : s.otp ≠ "")
    (hd : st.getItem ("signupData") = some dataStr)
    (hp : parse dataStr = Except.ok sd) :
    (handleVerify parse none none s st).storage.getItem ("signupData") = none ∧
    (handleVerify parse none none s st).storage.getItem ("signupEmail") = none ∧
    (handleVerify parse none none s st).scheduledNav = [(2000, "/login")] ∧
    (handleVerify parse none none s st).state.message =
      "Account created successfully! Redirecting to login..." := by
  have h : ¬(s.email = "" ∨ s.otp = "") := by
    intro h
    rcases h with h | h
    · exact he h
    · exact ho h
  unfold handleVerify
  rw [if_neg h]
  simp only [hd, hp, verifyOTPAndSignUp]
  refine ⟨?_, ?_, ?_, ?_⟩ <;>
    simp [LocalStorage.getItem, LocalStorage.removeItem]

/-- A storage holding both signup keys, as left by the signup step. -/
def intentStorage : LocalStorage :=
  (emptyStorage.setItem ("signupEmail") ("a@b.com")).setItem ("signupData")
    ("intent-json")

theorem handleVerify_success_clears_intent_and_completes_once_witness :
    (handleVerify sampleParse none none verifyReadyState
        intentStorage).storage.getItem ("signupData") = none ∧
    (handleVerify sampleParse none none verifyReadyState
        intentStorage).storage.getItem ("signupEmail") = none ∧
    (handleVerify sampleParse none none verifyReadyState
        intentStorage).scheduledNav = [(2000, "/login")] ∧
    (handleVerify sampleParse none none verifyReadyState
        intentStorage).state.message =
      "Account created successfully! Redirecting to login..." :=
  handleVerify_success_clears_intent_and_completes_once sampleParse
    verifyReadyState intentStorage ("intent-json") sampleSignupData
    (by decide) (by decide) (by decide) rfl

/-- Claim C5: the effect body of AuthProvider invokes the async checkUser and
hands React no cleanup (the unsubscribe closure checkUser returns is lost in
its Promise), so running the teardown leaves the subscription subscribed —
even though the closure written at lines 62-64, had it been registered,
would have unsubscribed it. -/
theorem authProvider_unmount_does_not_unsubscribe
    (lookup : Except String (Option SessionData)) (sub : Subscription) :
    (authProviderEffect lookup authInitialState).2 = none ∧
    runUnmountCleanup (authProviderEffect lookup authInitialState).2 sub = sub ∧
    ((checkUser lookup authInitialState).returnedCleanup sub).unsubscribed =
      true := by
  cases lookup <;> exact ⟨rfl, rfl, rfl⟩

/-- Claim C6: while the session store is loading, ProtectedRoute renders the
pending spinner; once resolved it redirects to the sign-in view carrying the
requested location when the user is null, and renders the protected children
when the user is non-null. -/
theorem ProtectedRoute_guards_by_session_state
    (user : Option String) (loading : Bool) (location : String) :
    (loading = true → ProtectedRoute user loading location = RouteRender.spinner) ∧
    (loading = false → user = none →
      ProtectedRoute user loading location = RouteRender.redirectToLogin location) ∧
    (loading = false → ∀ u : String, user = some u →
      ProtectedRoute user loading location = RouteRender.children) := by
  cases loading <;> cases user <;> simp [ProtectedRoute]

theorem ProtectedRoute_guards_by_session_state_witness :
    ProtectedRoute none false ("/data") = RouteRender.redirectToLogin ("/data") :=
  (ProtectedRoute_guards_by_session_state none false ("/data")).2.1 rfl rfl

/-- Claim C7 counterexample: with the cooldown at 0 but an empty email, the
resend action does not invoke sendSignUpOTP — it makes no provider call and
sets a local error instead. -/
theorem handleResendOtp_zero_cooldown_empty_email_makes_no_call :
    otpInitialState.cooldown = 0 ∧
    otpInitialState.email = "" ∧
    (handleResendOtp none otpInitialState emptyStorage).events = [] ∧
    (handleResendOtp none otpInitialState emptyStorage).state.error =
      "Email is required to resend verification code" := by
  refine ⟨rfl, rfl, ?_, ?_⟩ <;> decide

/-- Claim C7 (amended): while the cooldown is positive the resend action
issues no provider call and leaves the cooldown unchanged; when the cooldown
is 0 and the email is nonempty it invokes sendSignUpOTP and on success
resets the cooldown to 60; the timer tick decrements a positive cooldown by
one. -/
theorem handleResendOtp_cooldown_gates_provider_call
    (otpResp : Option AuthError) (s : OtpPageState) (st : LocalStorage) :
    (0 < s.cooldown →
      (handleResendOtp otpResp s st).events = [] ∧
      (handleResendOtp otpResp s st).state.cooldown = s.cooldown) ∧
    (s.cooldown = 0 → s.email ≠ "" →
      Event.call (ProviderCall.signInWithOtp s.email false) ∈
        (handleResendOtp otpResp s st).events ∧
      (otpResp = none → (handleResendOtp otpResp s st).state.cooldown = 60)) ∧
    (0 < s.cooldown → cooldownTick s = { s with cooldown := s.cooldown - 1 }) := by
  refine ⟨?_, ?_, ?_⟩
  · intro h
    constructor <;> simp [handleResendOtp, h]
  · intro h0 he
    cases otpResp <;>
      simp [handleResendOtp, h0, he, sendSignUpOTP]
  · intro h
    simp [cooldownTick, h]

theorem handleResendOtp_cooldown_gates_provider_call_witness :
    (handleResendOtp none cooldownActiveState initialSendStorage).state.cooldown
      = cooldownActiveState.cooldown ∧
    Event.call (ProviderCall.signInWithOtp mountedState.email false) ∈
      (handleResendOtp none mountedState initialSendStorage).events :=
  ⟨((handleResendOtp_cooldown_gates_provider_call none cooldownActiveState
      initialSendStorage).1 (by decide)).2,
   ((handleResendOtp_cooldown_gates_provider_call none mountedState
      initialSendStorage).2.1 rfl (by decide)).1⟩

/-- Claim C8: the resend action never touches the stored Pending Signup
Intent — the signupData key reads the same before and after handleResendOtp,
for every provider outcome, page state and storage. -/
theorem handleResendOtp_preserves_signupData
    (otpResp : Option AuthError) (s : OtpPageState) (st : LocalStorage) :
    (handleResendOtp otpResp s st).storage.getItem ("signupData") =
      st.getItem ("signupData") := by
  unfold handleResendOtp
  by_cases h1 : s.cooldown > 0
  · rw [if_pos h1]
  · rw [if_neg h1]
    by_cases h2 : s.email = ""
    · rw [if_pos h2]
    · rw [if_neg h2]
      cases otpResp <;>
        exact LocalStorage.getItem_setItem_ne st ("signupEmail") s.email
          ("signupData") (by decide)

/-- Claim C9: the session store starts loading; a failed initial session
lookup is logged, issues exactly the one getSession request, leaves user and
session null with loading cleared, and yields the same store state as a
lookup that found no session (the failure is not surfaced). -/
theorem checkUser_failure_treated_as_no_session (e : String) :
    authInitialState.loading = true ∧
    (checkUser (Except.error e) authInitialState).state =
      { user := none, session := none, loading := false } ∧
    (checkUser (Except.error e) authInitialState).state =
      (checkUser (Except.ok none) authInitialState).state ∧
    (checkUser (Except.error e) authInitialState).calls =
      [ProviderCall.getSession] ∧
    (checkUser (Except.error e) authInitialState).logs =
      ["Error checking session: " ++ e] :=
  ⟨rfl, rfl, rfl, rfl, rfl⟩

end Amma
